import Mathlib

/-!
Verification of the outlook-archiver front-end core: the wizard state
machine in `src/App.tsx`, the processing-config validation schema in
`src/types.ts`, the backend-error classifier in `src/lib/errorHandling.ts`,
and the PST file validation in `src/components/FileSelector.tsx`.

JavaScript strings are embedded as Lean `String`s (with substring and
suffix matching done on their character lists), JavaScript numbers as `ℚ`,
file sizes as `Nat`, and each React state-setter/effect pair as a pure
state-transition function.
-/

namespace OutlookArchiver

/-! String helpers (JS `toLowerCase`, `includes`, `endsWith`) -/

/-- Character-wise lowercasing, the embedding of JS `String.toLowerCase`. -/
def lcList (s : List Char) : List Char := s.map Char.toLower

/-- Test `startsWithL p s`: true when `p` is a prefix of `s`. -/
def startsWithL : List Char → List Char → Bool
  | [], _ => true
  | _ :: _, [] => false
  | a :: p, b :: s => a == b && startsWithL p s

/-- Test `substrL p s`: true when `p` occurs as a contiguous substring of `s`;
the embedding of JS `String.includes`. -/
def substrL (p : List Char) : List Char → Bool
  | [] => startsWithL p []
  | c :: s => startsWithL p (c :: s) || substrL p (s)

/-- Test `endsWithL p s`: true when `p` is a suffix of `s`; the embedding of
JS `String.endsWith`. -/
def endsWithL (p s : List Char) : Bool := startsWithL p.reverse s.reverse

/-- JS truthiness of a string: every string but `""` is truthy. -/
def strTruthy (s : String) : Bool := !(s == "")

/-- JS truthiness of an optional string field (`undefined` and `""` are
falsy). -/
def optStrTruthy : Option String → Bool
  | none => false
  | some s => strTruthy s

/-! Data model (`src/types.ts`) -/

/-- Record `ProcessingConfig` from `src/types.ts`; JS numbers are embedded as `ℚ`. -/
structure ProcessingConfig where
  pstFilePath : String
  emailsPerPdf : ℚ
  baseFileName : String
  outputDirectory : String
deriving DecidableEq, Repr

/-- Record `ProcessingProgress` from `src/types.ts`; the optional `error` field is
`Option String`. -/
structure ProcessingProgress where
  totalEmails : ℚ
  processedEmails : ℚ
  currentPdf : ℚ
  status : String
  isComplete : Bool
  error : Option String := none
deriving DecidableEq, Repr

/-- Error severity levels from `src/lib/errorHandling.ts` (`ErrorSeverity`). -/
inductive Severity where
  | info
  | warning
  | error
  | critical
deriving DecidableEq, Repr

/-- Record `LocalizedError` as constructed by the error-handling layer. The
`context`/`originalError` fields carry no information the verified claims
touch and are omitted; `timestamp` (`new Date()`) is embedded as an opaque
`Nat` supplied by the caller. -/
structure LocalizedError where
  code : String
  message : String
  germanMessage : String
  severity : Severity
  recoverable : Bool
  recoverySuggestions : List String
  timestamp : Nat
deriving DecidableEq, Repr

/-! Localized strings used by the state machine (`src/lib/localization.ts`) -/

namespace germanText

def progressReady : String := "Bereit für Verarbeitung"

def progressStarting : String := "Verarbeitung wird gestartet..."

def progressCancelled : String := "Verarbeitung abgebrochen"

end germanText

/-! Wizard state machine (`src/App.tsx`) -/

/-- The four wizard steps: the `currentStep` state of `App` takes values
`"file" | "config" | "process" | "progress"`. -/
inductive Step where
  | file
  | config
  | process
  | progress
deriving DecidableEq, Repr

/-- The complete mutable state owned by the `App` component. -/
structure AppState where
  selectedFile : String
  config : Option ProcessingConfig
  isProcessing : Bool
  progress : ProcessingProgress
  currentStep : Step
  globalError : Option LocalizedError
deriving DecidableEq, Repr

/-- The `useEffect` at `App.tsx:160-164`: whenever `progress.isComplete`
or `progress.error` is truthy, `isProcessing` is set to `false`. -/
def completionEffect (s : AppState) : AppState :=
  if s.progress.isComplete || optStrTruthy s.progress.error then
    { s with isProcessing := false }
  else s

/-- Delivering a progress update to the controller: the `progress` state is
replaced and the completion effect of `App.tsx:160-164` runs on the result. -/
def applyProgressUpdate (s : AppState) (p : ProcessingProgress) : AppState :=
  completionEffect { s with progress := p }

/-- The `useEffect` at `App.tsx:152-157`: whenever `selectedFile` is falsy
the step resets to file selection and the configuration is discarded. -/
def fileResetEffect (s : AppState) : AppState :=
  if strTruthy s.selectedFile then s
  else { s with currentStep := Step.file, config := none }

/-- Changing the selected-file state: `setSelectedFile f` followed by the
reset effect of `App.tsx:152-157`. -/
def setSelectedFileState (s : AppState) (f : String) : AppState :=
  fileResetEffect { s with selectedFile := f }

/-- Handler `handleStartProcessing` (`App.tsx:92-117`): no-op without a config;
otherwise sets `isProcessing`, moves to the progress step, clears the
global error, and rewrites `progress` by dropping its `error` field and
setting the status to the starting message (counters are spread from the
previous value). -/
def handleStartProcessing (s : AppState) : AppState :=
  match s.config with
  | none => s
  | some _ =>
    { s with
      isProcessing := true
      currentStep := Step.progress
      globalError := none
      progress :=
        { s.progress with
          status := germanText.progressStarting
          isComplete := false
          error := none } }

/-- Handler `handleCancelProcessing` (`App.tsx:120-139`): stops processing, returns
to the process step, and sets both the progress status and the progress
error to the cancelled message. -/
def handleCancelProcessing (s : AppState) : AppState :=
  { s with
    isProcessing := false
    currentStep := Step.process
    progress :=
      { s.progress with
        status := germanText.progressCancelled
        isComplete := false
        error := some germanText.progressCancelled } }

/-- Handler `handleConfigChange` (`App.tsx:67-89`): the configuration reported by
the form is committed with its `pstFilePath` overwritten by the currently
selected file; the global error is cleared; the step advances to process
when base name, output directory and per-PDF count are all truthy. -/
def handleConfigChange (s : AppState) (newConfig : ProcessingConfig) : AppState :=
  let updatedConfig := { newConfig with pstFilePath := s.selectedFile }
  let s1 := { s with config := some updatedConfig, globalError := none }
  if strTruthy updatedConfig.baseFileName && strTruthy updatedConfig.outputDirectory
      && decide (updatedConfig.emailsPerPdf > 0) then
    { s1 with currentStep := Step.process }
  else s1

/-! ProcessControl two-phase cancellation (`src/components/ProcessControl.tsx`) -/

/-- The `App` state paired with the local `showCancelDialog` state of the
`ProcessControl` component. -/
structure ControlState where
  app : AppState
  showCancelDialog : Bool
deriving DecidableEq, Repr

/-- Pressing the cancel button only opens the confirmation dialog
(`AlertDialogTrigger` with `onOpenChange`/`setShowCancelDialog`). -/
def openCancelDialog (c : ControlState) : ControlState :=
  { c with showCancelDialog := true }

/-- Handler `handleCancelDialog` (`ProcessControl.tsx:37-39`): dismissing the
dialog closes it and nothing else. -/
def handleCancelDialog (c : ControlState) : ControlState :=
  { c with showCancelDialog := false }

/-- Handler `handleCancelConfirm` (`ProcessControl.tsx:32-35`): the confirm action
invokes `onCancel` (wired to `handleCancelProcessing`) once and closes the
dialog. -/
def handleCancelConfirm (c : ControlState) : ControlState :=
  { app := handleCancelProcessing c.app, showCancelDialog := false }

/-! German error messages (`src/lib/errorHandling.ts`, `germanErrorMessages`) -/

namespace germanErrorMessages

def pstFileNotFound : String := "PST-Datei nicht gefunden"

def pstInvalidFormat : String := "Ungültiges PST-Format"

def permissionDenied : String := "Zugriff verweigert"

def pdfGenerationFailed : String := "PDF-Erstellung fehlgeschlagen"

def pdfInsufficientSpace : String := "Nicht genügend Speicherplatz für PDF-Erstellung"

def directoryNotFound : String := "Verzeichnis nicht gefunden"

def processingCancelled : String := "Verarbeitung abgebrochen"

def ipcConnectionFailed : String := "Verbindung zum Backend fehlgeschlagen"

def unknownError : String := "Unbekannter Fehler aufgetreten"

namespace recoverySuggestions

def checkFileExists : String := "Überprüfen Sie, ob die Datei existiert"

def checkPermissions : String := "Überprüfen Sie die Dateiberechtigungen"

def checkDiskSpace : String := "Überprüfen Sie den verfügbaren Speicherplatz"

def selectDifferentFile : String := "Wählen Sie eine andere Datei aus"

def selectDifferentDirectory : String := "Wählen Sie ein anderes Verzeichnis aus"

def restartApplication : String := "Starten Sie die Anwendung neu"

def contactSupport : String := "Wenden Sie sich an den Support"

def tryAgainLater : String := "Versuchen Sie es später erneut"

end recoverySuggestions

end germanErrorMessages

/-! Backend-error classifier (`src/lib/errorHandling.ts`, `mapBackendErrorToGerman`) -/

/-- Classifier `mapBackendErrorToGerman` (`errorHandling.ts:357-496`): lowercases the
raw message and checks an ordered sequence of substring fingerprints,
returning the first matching classification, or the unknown-error fallback.
`timestamp` embeds the `new Date()` call at the top of the function. -/
def mapBackendErrorToGerman (timestamp : Nat) (errorMessage : String) : LocalizedError :=
  let lowerMessage := lcList errorMessage.toList
  if substrL "pst file not found".toList lowerMessage
      || substrL "file not found".toList lowerMessage then
    { code := "PST_FILE_NOT_FOUND"
      message := errorMessage
      germanMessage := germanErrorMessages.pstFileNotFound
      severity := Severity.error
      recoverable := true
      recoverySuggestions := [germanErrorMessages.recoverySuggestions.checkFileExists,
        germanErrorMessages.recoverySuggestions.selectDifferentFile]
      timestamp := timestamp }
  else if substrL "invalid pst format".toList lowerMessage
      || substrL "corrupted".toList lowerMessage then
    { code := "PST_INVALID_FORMAT"
      message := errorMessage
      germanMessage := germanErrorMessages.pstInvalidFormat
      severity := Severity.error
      recoverable := true
      recoverySuggestions := [germanErrorMessages.recoverySuggestions.selectDifferentFile,
        "Überprüfen Sie, ob die PST-Datei nicht beschädigt ist"]
      timestamp := timestamp }
  else if substrL "permission denied".toList lowerMessage
      || substrL "access denied".toList lowerMessage then
    { code := "PERMISSION_DENIED"
      message := errorMessage
      germanMessage := germanErrorMessages.permissionDenied
      severity := Severity.error
      recoverable := true
      recoverySuggestions := [germanErrorMessages.recoverySuggestions.checkPermissions,
        "Führen Sie die Anwendung als Administrator aus"]
      timestamp := timestamp }
  else if substrL "pdf generation failed".toList lowerMessage
      || substrL "pdf error".toList lowerMessage then
    { code := "PDF_GENERATION_FAILED"
      message := errorMessage
      germanMessage := germanErrorMessages.pdfGenerationFailed
      severity := Severity.error
      recoverable := true
      recoverySuggestions := [germanErrorMessages.recoverySuggestions.checkDiskSpace,
        germanErrorMessages.recoverySuggestions.checkPermissions]
      timestamp := timestamp }
  else if substrL "disk space".toList lowerMessage
      || substrL "insufficient space".toList lowerMessage then
    { code := "INSUFFICIENT_DISK_SPACE"
      message := errorMessage
      germanMessage := germanErrorMessages.pdfInsufficientSpace
      severity := Severity.error
      recoverable := true
      recoverySuggestions := [germanErrorMessages.recoverySuggestions.checkDiskSpace,
        "Löschen Sie nicht benötigte Dateien"]
      timestamp := timestamp }
  else if substrL "directory not found".toList lowerMessage
      || substrL "invalid directory".toList lowerMessage then
    { code := "DIRECTORY_NOT_FOUND"
      message := errorMessage
      germanMessage := germanErrorMessages.directoryNotFound
      severity := Severity.error
      recoverable := true
      recoverySuggestions := [germanErrorMessages.recoverySuggestions.selectDifferentDirectory,
        "Erstellen Sie das Verzeichnis manuell"]
      timestamp := timestamp }
  else if substrL "processing cancelled".toList lowerMessage
      || substrL "cancelled".toList lowerMessage then
    { code := "PROCESSING_CANCELLED"
      message := errorMessage
      germanMessage := germanErrorMessages.processingCancelled
      severity := Severity.info
      recoverable := true
      recoverySuggestions := ["Starten Sie die Verarbeitung erneut, wenn gewünscht"]
      timestamp := timestamp }
  else if substrL "connection".toList lowerMessage
      || substrL "ipc".toList lowerMessage
      || substrL "backend".toList lowerMessage then
    { code := "IPC_CONNECTION_FAILED"
      message := errorMessage
      germanMessage := germanErrorMessages.ipcConnectionFailed
      severity := Severity.critical
      recoverable := true
      recoverySuggestions := [germanErrorMessages.recoverySuggestions.restartApplication,
        germanErrorMessages.recoverySuggestions.contactSupport]
      timestamp := timestamp }
  else
    { code := "UNKNOWN_ERROR"
      message := errorMessage
      germanMessage := germanErrorMessages.unknownError ++ ": " ++ errorMessage
      severity := Severity.error
      recoverable := false
      recoverySuggestions := [germanErrorMessages.recoverySuggestions.tryAgainLater,
        germanErrorMessages.recoverySuggestions.restartApplication]
      timestamp := timestamp }

/-- The declared fingerprint order of `mapBackendErrorToGerman`, written
down from the spec's contract: each entry lists the substring
fingerprints of one branch together with the code that branch returns. -/
def fingerprintOrder : List (List String × String) :=
  [(["pst file not found", "file not found"], "PST_FILE_NOT_FOUND"),
   (["invalid pst format", "corrupted"], "PST_INVALID_FORMAT"),
   (["permission denied", "access denied"], "PERMISSION_DENIED"),
   (["pdf generation failed", "pdf error"], "PDF_GENERATION_FAILED"),
   (["disk space", "insufficient space"], "INSUFFICIENT_DISK_SPACE"),
   (["directory not found", "invalid directory"], "DIRECTORY_NOT_FOUND"),
   (["processing cancelled", "cancelled"], "PROCESSING_CANCELLED"),
   (["connection", "ipc", "backend"], "IPC_CONNECTION_FAILED")]

/-- Spec-side classifier: the code of the first entry of `fingerprintOrder`
one of whose fingerprints occurs (case-insensitively) in the message, or
the unknown code when none matches. -/
def firstMatchCode (errorMessage : String) : String :=
  let lowerMessage := lcList errorMessage.toList
  match fingerprintOrder.find? (fun e => e.1.any (fun fp => substrL fp.toList lowerMessage)) with
  | some e => e.2
  | none => "UNKNOWN_ERROR"

/-! Config validation (`src/types.ts`, `processingConfigSchema.emailsPerPdf`) -/

def emailsPerPdfMinMessage : String := "Mindestens 1 E-Mail pro PDF erforderlich"

def emailsPerPdfMaxMessage : String := "Maximal 25 E-Mails pro PDF erlaubt"

/-- The checks of the zod schema `z.number().min(1, ...).max(25, ...)` on a
present numeric value (`types.ts:48-54`). -/
def checkEmailsPerPdf (v : ℚ) : Except String ℚ :=
  if v < 1 then Except.error emailsPerPdfMinMessage
  else if v > 25 then Except.error emailsPerPdfMaxMessage
  else Except.ok v

/-- The full `emailsPerPdf` field schema including `.default(10)`: an
absent value is replaced by 10 before the min/max checks run. -/
def validateEmailsPerPdf : Option ℚ → Except String ℚ
  | none => checkEmailsPerPdf 10
  | some v => checkEmailsPerPdf v

/-! PST file validation (`src/components/FileSelector.tsx`) -/

/-- The two observable properties of a browser `File` object used by the
validator: its name and its byte size. -/
structure JsFile where
  name : String
  size : Nat
deriving DecidableEq, Repr

/-- Validator `validatePstFile` (`FileSelector.tsx:22-78`): rejects names not ending
in `.pst` (case-insensitively), then empty files, then files smaller than
1024 bytes; returns `none` for a valid file. `timestamp` embeds the
`new Date()` call. -/
def validatePstFile (timestamp : Nat) (file : JsFile) : Option LocalizedError :=
  if !endsWithL ".pst".toList (lcList file.name.toList) then
    some { code := "INVALID_FILE_EXTENSION"
           message := "File must be a PST file"
           germanMessage := "Datei muss eine PST-Datei sein (.pst)"
           severity := Severity.error
           recoverable := true
           recoverySuggestions := ["Wählen Sie eine Datei mit der Erweiterung .pst aus",
             "Überprüfen Sie, ob es sich um eine Microsoft Outlook PST-Datei handelt"]
           timestamp := timestamp }
  else if file.size == 0 then
    some { code := "PST_FILE_EMPTY"
           message := "PST file is empty or corrupted"
           germanMessage := "PST-Datei ist leer oder beschädigt"
           severity := Severity.error
           recoverable := true
           recoverySuggestions := ["Wählen Sie eine andere PST-Datei aus",
             "Überprüfen Sie, ob die Datei nicht beschädigt ist",
             "Stellen Sie sicher, dass die Datei vollständig heruntergeladen wurde"]
           timestamp := timestamp }
  else if file.size < 1024 then
    some { code := "PST_FILE_TOO_SMALL"
           message := "PST file seems too small"
           germanMessage := "PST-Datei scheint zu klein zu sein"
           severity := Severity.warning
           recoverable := true
           recoverySuggestions := ["Überprüfen Sie, ob es sich um eine vollständige PST-Datei handelt",
             "Wählen Sie eine andere PST-Datei aus, falls verfügbar"]
           timestamp := timestamp }
  else none

/-- The outcome of `handleFileSelect` in the `FileSelector` component: the
resulting local error state, the file reference committed upward through
`onFileSelect` (if any), and the errors passed to `logError`. -/
structure SelectorOutcome where
  localError : Option LocalizedError
  committedFile : Option String
  logged : List LocalizedError
deriving DecidableEq, Repr

/-- Handler `handleFileSelect` (`FileSelector.tsx:81-97`): on a validation error,
sets the local error, logs it, and commits nothing; on success, clears the
local error and commits `file.name` upward. -/
def handleFileSelect (timestamp : Nat) (file : JsFile) : SelectorOutcome :=
  match validatePstFile timestamp file with
  | some validationError =>
    { localError := some validationError
      committedFile := none
      logged := [validationError] }
  | none =>
    { localError := none
      committedFile := some file.name
      logged := [] }

/-! Concrete sample states used by the witness theorems. `initialProgress`
and `initialState` mirror the initial `useState` values of `App`
(`App.tsx:20-39`); the others are reachable states of the wizard. -/

/-- Initial progress value of `App` (`App.tsx:27-33`). -/
def initialProgress : ProcessingProgress :=
  { totalEmails := 0
    processedEmails := 0
    currentPdf := 0
    status := germanText.progressReady
    isComplete := false
    error := none }

/-- Initial state of `App` (`App.tsx:20-39`). -/
def initialState : AppState :=
  { selectedFile := ""
    config := none
    isProcessing := false
    progress := initialProgress
    currentStep := Step.file
    globalError := none }

/-- Valid sample configuration (the spec's scenario values). -/
def sampleConfig : ProcessingConfig :=
  { pstFilePath := "archive.pst"
    emailsPerPdf := 10
    baseFileName := "emails_archiv"
    outputDirectory := "/out" }

/-- Sample state at the process-control step with a committed config. -/
def readyState : AppState :=
  { initialState with
    selectedFile := "archive.pst"
    config := some sampleConfig
    currentStep := Step.process }

/-- Sample state with a run in flight. -/
def runningState : AppState :=
  { readyState with
    isProcessing := true
    currentStep := Step.progress }

/-- Sample completed progress update. -/
def completedProgress : ProcessingProgress :=
  { totalEmails := 5
    processedEmails := 5
    currentPdf := 1
    status := "fertig"
    isComplete := true
    error := none }

/-! Claim theorems -/

/-- C1: for every progress update delivered to the lifecycle controller, if
the resulting progress has `isComplete = true` or a non-empty `error`
field, the running flag becomes `false`, regardless of the prior value of
`isProcessing` and of the state the update arrived in. -/
theorem progress_completion_forces_running_false (s : AppState) (p : ProcessingProgress)
    (h : p.isComplete = true ∨ ∃ e, p.error = some e ∧ e ≠ "") :
    (applyProgressUpdate s p).isProcessing = false := by
  unfold applyProgressUpdate completionEffect
  rcases h with h | ⟨e, he, hne⟩
  · simp [h]
  · simp [he, optStrTruthy, strTruthy, hne]

/-- Witness for C1: a concrete completed update on a running state. -/
theorem progress_completion_forces_running_false_witness :
    (applyProgressUpdate runningState completedProgress).isProcessing = false :=
  progress_completion_forces_running_false runningState completedProgress (Or.inl rfl)

/-- C2: from every wizard state, whenever the selected file reference
becomes empty the step becomes file selection and the configuration is
discarded. -/
theorem clearing_selected_file_resets_wizard (s : AppState) :
    (setSelectedFileState s "").currentStep = Step.file ∧
      (setSelectedFileState s "").config = none := by
  unfold setSelectedFileState fileResetEffect strTruthy
  simp

/-- Witness for C2: clearing the file from the process-control state. -/
theorem clearing_selected_file_resets_wizard_witness :
    (setSelectedFileState readyState "").currentStep = Step.file ∧
      (setSelectedFileState readyState "").config = none :=
  clearing_selected_file_resets_wizard readyState

/-- C3: opening or dismissing the cancel dialog mutates no `App` state;
the explicit confirm action performs exactly one application of
`handleCancelProcessing`: running becomes `false`, the step reverts to
process control, and both the progress status and the progress error are
set to the cancelled classification. -/
theorem cancel_requires_confirmation (c : ControlState) :
    (openCancelDialog c).app = c.app ∧
    (handleCancelDialog c).app = c.app ∧
    (handleCancelConfirm c).app = handleCancelProcessing c.app ∧
    (handleCancelConfirm c).app.isProcessing = false ∧
    (handleCancelConfirm c).app.currentStep = Step.process ∧
    (handleCancelConfirm c).app.progress.status = germanText.progressCancelled ∧
    (handleCancelConfirm c).app.progress.error = some germanText.progressCancelled :=
  ⟨rfl, rfl, rfl, rfl, rfl, rfl, rfl⟩

/-- Witness for C3: the two-phase cancellation on a concrete running state. -/
theorem cancel_requires_confirmation_witness :
    (openCancelDialog ⟨runningState, false⟩).app = runningState ∧
      (handleCancelConfirm ⟨runningState, true⟩).app.isProcessing = false :=
  ⟨(cancel_requires_confirmation ⟨runningState, false⟩).1,
    (cancel_requires_confirmation ⟨runningState, true⟩).2.2.2.1⟩

/-- C4: `handleStartProcessing` with no committed configuration is a
no-op; with one it sets running, moves to the progress step, clears the
global error, sets the progress status to the starting message, drops the
progress error field, and leaves the three accumulated counters
unchanged. -/
theorem start_processing_requires_config_and_frame (s : AppState) :
    (s.config = none → handleStartProcessing s = s) ∧
    (∀ c, s.config = some c →
      (handleStartProcessing s).isProcessing = true ∧
      (handleStartProcessing s).currentStep = Step.progress ∧
      (handleStartProcessing s).globalError = none ∧
      (handleStartProcessing s).progress.status = germanText.progressStarting ∧
      (handleStartProcessing s).progress.error = none ∧
      (handleStartProcessing s).progress.totalEmails = s.progress.totalEmails ∧
      (handleStartProcessing s).progress.processedEmails = s.progress.processedEmails ∧
      (handleStartProcessing s).progress.currentPdf = s.progress.currentPdf) := by
  constructor
  · intro h
    unfold handleStartProcessing
    rw [h]
  · intro c h
    unfold handleStartProcessing
    rw [h]
    exact ⟨rfl, rfl, rfl, rfl, rfl, rfl, rfl, rfl⟩

/-- Witness for C4: no-op on the initial state (no config), effects on a
state with a committed config. -/
theorem start_processing_requires_config_and_frame_witness :
    handleStartProcessing initialState = initialState ∧
    (handleStartProcessing readyState).isProcessing = true ∧
    (handleStartProcessing readyState).currentStep = Step.progress :=
  ⟨(start_processing_requires_config_and_frame initialState).1 rfl,
    ((start_processing_requires_config_and_frame readyState).2 sampleConfig rfl).1,
    ((start_processing_requires_config_and_frame readyState).2 sampleConfig rfl).2.1⟩

/-- C5 counterexample: the schema accepts the non-integer value 3/2
(`mkRat 3 2`, denominator 2), so acceptance is not equivalent to being an
integer in [1, 25]: the zod chain `z.number().min(1).max(25)` never checks
integrality. -/
theorem emailsPerPdf_accepts_noninteger_counterexample :
    validateEmailsPerPdf (some (mkRat 3 2)) = Except.ok (mkRat 3 2) ∧
      (mkRat 3 2).den = 2 :=
  ⟨rfl, by decide⟩

/-- C5 amended: the schema accepts a present value exactly when it lies in
[1, 25] (integrality is not enforced); an absent value defaults to 10; a
below-minimum value is rejected with the message containing the bound 1
and an above-maximum value with the message containing the bound 25. -/
theorem emailsPerPdf_range_default_and_messages (v : ℚ) :
    validateEmailsPerPdf none = Except.ok 10 ∧
    (validateEmailsPerPdf (some v) = Except.ok v ↔ 1 ≤ v ∧ v ≤ 25) ∧
    (validateEmailsPerPdf (some v) = Except.error emailsPerPdfMinMessage ↔ v < 1) ∧
    (validateEmailsPerPdf (some v) = Except.error emailsPerPdfMaxMessage ↔ 25 < v) ∧
    substrL "1".toList emailsPerPdfMinMessage.toList = true ∧
    substrL "25".toList emailsPerPdfMaxMessage.toList = true := by
  refine ⟨by simp only [validateEmailsPerPdf]; norm_num [checkEmailsPerPdf], ?_, ?_, ?_,
    by decide, by decide⟩
  all_goals simp only [validateEmailsPerPdf, checkEmailsPerPdf]
  · split_ifs with h1 h2
    · exact iff_of_false (by simp) (fun hb => absurd h1 (not_lt.mpr hb.1))
    · exact iff_of_false (by simp) (fun hb => absurd h2 (not_lt.mpr hb.2))
    · exact iff_of_true rfl ⟨not_lt.mp h1, not_lt.mp h2⟩
  · split_ifs with h1 h2
    · exact iff_of_true rfl h1
    · exact iff_of_false (by simp only [Except.error.injEq]; decide) h1
    · exact iff_of_false (by simp) h1
  · split_ifs with h1 h2
    · exact iff_of_false (by simp only [Except.error.injEq]; decide) (by intro h; linarith)
    · exact iff_of_true rfl h2
    · exact iff_of_false (by simp) h2

/-- Witness for C5 (amended): the bound messages at the concrete
out-of-range values 0 and 30, and the default for an absent value. -/
theorem emailsPerPdf_range_default_and_messages_witness :
    validateEmailsPerPdf none = Except.ok 10 ∧
    validateEmailsPerPdf (some 0) = Except.error emailsPerPdfMinMessage ∧
    validateEmailsPerPdf (some 30) = Except.error emailsPerPdfMaxMessage :=
  ⟨(emailsPerPdf_range_default_and_messages 0).1,
    (emailsPerPdf_range_default_and_messages 0).2.2.1.mpr (by norm_num),
    (emailsPerPdf_range_default_and_messages 30).2.2.2.1.mpr (by norm_num)⟩

set_option maxHeartbeats 1000000 in
/-- C6: the classifier returns the code of the first fingerprint entry in
the declared order whose fingerprint occurs (case-insensitively) in the
message; in particular a message containing "file not found" always
classifies as `PST_FILE_NOT_FOUND`, never as unknown. -/
theorem classifier_first_fingerprint_in_order (t : Nat) (msg : String) :
    (mapBackendErrorToGerman t msg).code = firstMatchCode msg ∧
    (substrL "file not found".toList (lcList msg.toList) = true →
      (mapBackendErrorToGerman t msg).code = "PST_FILE_NOT_FOUND") := by
  constructor
  · unfold mapBackendErrorToGerman firstMatchCode fingerprintOrder
    simp only [List.find?, List.any_cons, List.any_nil, Bool.or_false, Bool.or_assoc]
    split_ifs <;> simp_all only [Bool.not_eq_true]
  · intro h
    simp only [mapBackendErrorToGerman]
    split_ifs with h1 <;>
      first
        | rfl
        | exact absurd (by rw [h, Bool.or_true]) h1

/-- Witness for C6: the concrete message "File not found". -/
theorem classifier_first_fingerprint_in_order_witness :
    (mapBackendErrorToGerman 0 "File not found").code = firstMatchCode "File not found" ∧
    (mapBackendErrorToGerman 0 "File not found").code = "PST_FILE_NOT_FOUND" :=
  ⟨(classifier_first_fingerprint_in_order 0 "File not found").1,
    (classifier_first_fingerprint_in_order 0 "File not found").2 (by decide)⟩

/-- C7: the classifier is deterministic on message content: two
invocations on the same raw message (with different timestamps) return the
same code and the same severity. -/
theorem classifier_deterministic_on_message (t1 t2 : Nat) (msg : String) :
    (mapBackendErrorToGerman t1 msg).code = (mapBackendErrorToGerman t2 msg).code ∧
    (mapBackendErrorToGerman t1 msg).severity = (mapBackendErrorToGerman t2 msg).severity := by
  simp only [mapBackendErrorToGerman]
  split_ifs <;> exact ⟨rfl, rfl⟩

/-- Witness for C7: two invocations at distinct timestamps. -/
theorem classifier_deterministic_on_message_witness :
    (mapBackendErrorToGerman 1 "Permission denied while writing file").code =
      (mapBackendErrorToGerman 2 "Permission denied while writing file").code :=
  (classifier_deterministic_on_message 1 2 "Permission denied while writing file").1

/-- C8: a candidate file is committed upward with the local error cleared
exactly when its name ends in `.pst` (case-insensitively), its size is
non-zero, and its size is at least the 1024-byte threshold; a valid-named
non-empty file below the threshold is rejected with a warning-severity
classification that is stored as the local error and logged, and no file
reference is committed. -/
theorem select_candidate_commit_iff_valid (t : Nat) (f : JsFile) :
    ((handleFileSelect t f).committedFile = some f.name ∧ (handleFileSelect t f).localError = none
      ↔ endsWithL ".pst".toList (lcList f.name.toList) = true ∧ f.size ≠ 0 ∧ 1024 ≤ f.size) ∧
    (endsWithL ".pst".toList (lcList f.name.toList) = true → 0 < f.size → f.size < 1024 →
      ∃ e, (handleFileSelect t f).localError = some e ∧
        e.severity = Severity.warning ∧
        e.code = "PST_FILE_TOO_SMALL" ∧
        (handleFileSelect t f).logged = [e] ∧
        (handleFileSelect t f).committedFile = none) := by
  simp only [handleFileSelect, validatePstFile]
  constructor
  · split_ifs with h1 h2 h3
    · refine iff_of_false (fun hc => hc.1.elim) (fun hb => ?_)
      rw [Bool.not_eq_true'] at h1
      rw [hb.1] at h1
      exact Bool.noConfusion h1
    · refine iff_of_false (fun hc => hc.1.elim) (fun hb => ?_)
      rw [beq_iff_eq] at h2
      exact hb.2.1 h2
    · refine iff_of_false (fun hc => hc.1.elim) (fun hb => ?_)
      omega
    · rw [Bool.not_eq_true', Bool.not_eq_false] at h1
      rw [beq_iff_eq] at h2
      exact iff_of_true ⟨rfl, rfl⟩ ⟨h1, h2, by omega⟩
  · intro he hpos hlt
    split_ifs with h1 h2
    · rw [he] at h1
      exact absurd h1 (by decide)
    · rw [beq_iff_eq] at h2
      omega
    · exact ⟨_, rfl, rfl, rfl, rfl, rfl⟩

/-- Witness for C8: a 5000-byte `.pst` file is committed; a 500-byte
`.pst` file is rejected without a commit. -/
theorem select_candidate_commit_iff_valid_witness :
    (handleFileSelect 0 ⟨"archive.pst", 5000⟩).committedFile = some "archive.pst" ∧
    (handleFileSelect 0 ⟨"small.pst", 500⟩).committedFile = none := by
  refine ⟨((select_candidate_commit_iff_valid 0 ⟨"archive.pst", 5000⟩).1.mpr (by decide)).1, ?_⟩
  obtain ⟨e, he⟩ :=
    (select_candidate_commit_iff_valid 0 ⟨"small.pst", 500⟩).2 (by decide) (by decide) (by decide)
  exact he.2.2.2.2

/-- C9: every configuration committed by the configuration change handler
stores the currently selected file in its `pstFilePath` field: the path
reported by the form is overwritten and never reaches the stored
configuration. -/
theorem config_commit_overwrites_pst_path (s : AppState) (newConfig : ProcessingConfig) :
    (handleConfigChange s newConfig).config =
      some { newConfig with pstFilePath := s.selectedFile } := by
  simp only [handleConfigChange]
  split_ifs <;> rfl

/-- Witness for C9: a form config carrying the path "form.pst" is stored
with the selected file "archive.pst" instead. -/
theorem config_commit_overwrites_pst_path_witness :
    (handleConfigChange readyState { sampleConfig with pstFilePath := "form.pst" }).config =
      some sampleConfig :=
  config_commit_overwrites_pst_path readyState { sampleConfig with pstFilePath := "form.pst" }

/-- C10: every classification returned by the backend-error classifier,
including the unknown fallback, carries at least one recovery
suggestion. -/
theorem classifier_suggestions_nonempty (t : Nat) (msg : String) :
    0 < (mapBackendErrorToGerman t msg).recoverySuggestions.length := by
  simp only [mapBackendErrorToGerman]
  split_ifs <;> simp

/-- Witness for C10: the unknown fallback on an unrecognized message. -/
theorem classifier_suggestions_nonempty_witness :
    0 < (mapBackendErrorToGerman 0 "xyz").recoverySuggestions.length :=
  classifier_suggestions_nonempty 0 "xyz"

end OutlookArchiver
